import Mathlib

/-!
Shallow embedding of the MFT-record / extent-resolution engine of the
ntfs3-oot driver (src/inode.c), together with theorems settling the
frozen claims about it.

Conventions of the embedding:
* machine integers become `Nat` (sizes, offsets, cluster numbers) or
  `Int` (error returns, mirroring the kernel's negative errno style);
* external collaborators (cluster allocator, index B-tree, record pool,
  unicode codecs, block layer) are injected as explicit parameters or
  environment fields carrying their success/failure outcome, exactly at
  the call sites where src/inode.c consults them;
* a page of the page cache is a function `Nat -> Nat` from byte offset
  (relative to the block being resolved) to byte value.
-/

/-! ## Kernel error codes used by src/inode.c (negative errno values) -/

def eNOENT : Int := -2

def eIO : Int := -5

def eNOMEM : Int := -12

def eINVAL : Int := -22

def eFBIG : Int := -27

def eNOTEMPTY : Int := -39

def eOPNOTSUPP : Int := -95

/-! ## Extent resolver: `ntfs_get_block_vbo` (src/inode.c:515-652)

The resolver takes the logical byte offset `vbo`, a buffer head, the
`create` flag and the calling context, consults `attr_data_get_block`
(external; its outcome is the `BlockLookup` argument) and classifies /
maps the block. -/

structure SbInfo where
  clusterBits : Nat
  blockSize : Nat
  deriving Repr, DecidableEq

/-- In-memory file state consulted by the resolver: `ni->i_valid`,
`inode->i_size`, and the resident flag. -/
structure NiState where
  iValid : Nat
  iSize : Nat
  resident : Bool
  deriving Repr, DecidableEq

/-- Buffer head state: the flags and fields `ntfs_get_block_vbo` touches
(`mapped`, `new`, `uptodate`, `b_size`, `b_blocknr`). -/
structure BhState where
  mapped : Bool
  isNew : Bool
  uptodate : Bool
  bSize : Nat
  blocknr : Nat
  deriving Repr, DecidableEq

/-- The `enum get_block_ctx` of src/inode.c:507-513. -/
inductive GbCtx
  | general
  | writeBegin
  | dioR
  | dioW
  | bmap
  deriving Repr, DecidableEq

/-- Outcome of the external `attr_data_get_block` call: error code,
logical->physical mapping (`none` models `SPARSE_LCN`), run length in
clusters, and whether a fresh cluster was allocated (`create` only). -/
structure BlockLookup where
  err : Int
  lcn : Option Nat
  len : Nat
  isNew : Bool
  deriving Repr, DecidableEq

/-- Result of the resolver: returned error, final buffer-head state, the
(possibly advanced) `ni->i_valid`, and the page content after any read /
zero-fill the resolver performed itself. -/
structure GbvOut where
  err : Int
  bh : BhState
  iValid : Nat
  page : Nat → Nat

/-- `SPARSE_LCN` sentinel ((CLST)-1 in a 64-bit build); only reachable on
the WARN_ON path (create over a sparse run), which no claim exercises. -/
def sparseLcn : Nat := 2 ^ 64 - 1

/-- Shallow embedding of `ntfs_get_block_vbo` (src/inode.c:515-652).
`resErr` is the outcome of `attr_data_read_resident`, `readOk` the
outcome of the `ll_rw_block`/`wait_on_buffer` read in the
valid-straddling branch, `physRead i` the physical byte at offset `i`
inside the resolved block, `page0` the page content before the call. -/
def getBlockVbo (sbi : SbInfo) (ni : NiState) (vbo : Nat) (bh0 : BhState)
    (create : Bool) (ctx : GbCtx) (lk : BlockLookup) (resErr : Int)
    (readOk : Bool) (physRead : Nat → Nat) (page0 : Nat → Nat) : GbvOut :=
  -- clear previous state
  let bh : BhState := { bh0 with isNew := false, uptodate := false }
  -- direct write uses create=0
  if !create ∧ ni.iValid ≤ vbo then
    -- out of valid
    { err := 0, bh := bh, iValid := ni.iValid, page := page0 }
  else if ni.iSize ≤ vbo then
    -- out of size
    { err := 0, bh := bh, iValid := ni.iValid, page := page0 }
  else if ni.resident then
    if resErr = 0 then
      { err := 0, bh := { bh with uptodate := true, bSize := sbi.blockSize },
        iValid := ni.iValid, page := page0 }
    else
      { err := resErr, bh := { bh with bSize := sbi.blockSize },
        iValid := ni.iValid, page := page0 }
  else
    let off := vbo % 2 ^ sbi.clusterBits
    if lk.err ≠ 0 then
      { err := lk.err, bh := bh, iValid := ni.iValid, page := page0 }
    else if lk.len = 0 then
      { err := 0, bh := bh, iValid := ni.iValid, page := page0 }
    else
      let bytes := lk.len * 2 ^ sbi.clusterBits - off
      if lk.lcn = none ∧ !create then
        -- sparse read: clamp b_size to the hole span, leave unmapped
        { err := 0, bh := { bh with bSize := min bh.bSize bytes },
          iValid := ni.iValid, page := page0 }
      else
        -- (sparse ∧ create is the WARN_ON path: code falls through)
        let lcn := lk.lcn.getD sparseLcn
        let bh := if create ∧ lk.isNew then { bh with isNew := true } else bh
        let lbo := lcn * 2 ^ sbi.clusterBits + off
        let bh := { bh with mapped := true, blocknr := lbo / sbi.blockSize }
        let valid := ni.iValid
        if ctx = GbCtx.dioW then
          -- ntfs_direct_IO will update ni->i_valid
          let bh := if valid ≤ vbo then { bh with isNew := true } else bh
          { err := 0, bh := { bh with bSize := min bh.bSize bytes },
            iValid := valid, page := page0 }
        else if create then
          -- normal write
          if valid ≤ vbo then
            let bh := { bh with isNew := true }
            let bytes := min bytes bh.bSize
            { err := 0, bh := { bh with bSize := min bh.bSize bytes },
              iValid := vbo + bytes, page := page0 }
          else
            { err := 0, bh := { bh with bSize := min bh.bSize bytes },
              iValid := valid, page := page0 }
        else if ni.iSize ≤ valid then
          -- normal read of normal file
          { err := 0, bh := { bh with bSize := min bh.bSize bytes },
            iValid := valid, page := page0 }
        else if valid ≤ vbo then
          -- read out of valid data: should never be here
          { err := 0,
            bh := { bh with mapped := false, bSize := min bh.bSize bytes },
            iValid := valid, page := page0 }
        else if vbo + bytes ≤ valid then
          -- normal read
          { err := 0, bh := { bh with bSize := min bh.bSize bytes },
            iValid := valid, page := page0 }
        else if vbo + sbi.blockSize ≤ valid then
          -- normal short read
          { err := 0,
            bh := { bh with bSize := min bh.bSize sbi.blockSize },
            iValid := valid, page := page0 }
        else
          -- read across valid size: vbo < valid ∧ valid < vbo + block_size
          let voff := valid - vbo
          let bh := { bh with bSize := sbi.blockSize }
          if !readOk then
            { err := eIO, bh := bh, iValid := valid, page := page0 }
          else
            -- the block is read from disk, then [voff, block_size) zeroed
            let page1 : Nat → Nat := fun i =>
              if i < sbi.blockSize then physRead i else page0 i
            let page2 : Nat → Nat := fun i =>
              if voff ≤ i ∧ i < sbi.blockSize then 0 else page1 i
            { err := 0, bh := { bh with uptodate := true },
              iValid := valid, page := page2 }

/-- Valid-size update performed at the end of a direct-IO write,
`ntfs_direct_IO` (src/inode.c:787-796): after `blockdev_direct_IO`
returned `ret`, advance `ni->i_valid` to `vbo + ret` if the write ended
past it (and the inode is not a block device). -/
def dioWriteEndValid (valid : Nat) (vbo : Nat) (ret : Int) (isBlkDev : Bool) :
    Nat :=
  if ret ≤ 0 then valid
  else if valid < vbo + ret.toNat ∧ !isBlkDev then vbo + ret.toNat
  else valid

/-- Modelled from the spec: the caller-side obligation of §4.4 ("writers
must zero-fill any gap between the old `valid_size` and the start of the
new write themselves").  The zero-filling writer itself (the
`ntfs_extend` helper of the driver's file.c) is not part of src/; this
definition renders the specified write path: bytes of the gap
`[valid, vbo)` are zero-filled, then `len` bytes of `data` are written at
`vbo`. -/
def writerExtendContent (content : Nat → Nat) (valid vbo len : Nat)
    (data : Nat → Nat) : Nat → Nat :=
  fun j =>
    if j < vbo then (if valid ≤ j then 0 else content j)
    else if j < vbo + len then data (j - vbo)
    else content j

/-! ## Record builder: `ntfs_create_inode` (src/inode.c:1200-1672)

The create sequence is modelled as a state machine over the externally
visible resources the compensating-undo chain (labels out7..out3) is
responsible for.  Each external collaborator outcome is an environment
field; the goto-chain of the source becomes the `undoOut*` cascade. -/

inductive FileKind
  | reg
  | dir
  | lnk
  | chrDev
  | blkDev
  | fifo
  | sock
  deriving Repr, DecidableEq

/-- Externally visible resources touched by `ntfs_create_inode`:
whether the record number is taken from the free pool
(`ntfs_look_free_mft` / `ntfs_mark_rec_free`), the record's in-use flag,
clusters allocated to `ni->file.run`, the reparse-tag registration
(`ntfs_insert_reparse` / `ntfs_remove_reparse`), and the directory-index
entry (`indx_insert_entry` / `indx_delete_entry`). -/
structure FsRes where
  reserved : Bool
  recInUse : Bool
  clusters : Nat
  reparseReg : Bool
  indexEntry : Bool
  deriving Repr, DecidableEq

def FsRes.init : FsRes :=
  { reserved := false, recInUse := false, clusters := 0,
    reparseReg := false, indexEntry := false }

/-- Outcomes of the external collaborator calls made by
`ntfs_create_inode`, in call order; `none` means the call succeeds. -/
structure CreateEnv where
  dirRootOk : Bool
  getnameOk : Bool
  mftErr : Option Int
  newInodeErr : Option Int
  fillNameErr : Option Int
  indxInitErr : Option Int
  rpBufErr : Option Int
  rpNonRes : Bool
  rpClusters : Nat
  allocErr : Option Int
  runPackErr : Option Int
  runPackVcnOk : Bool
  insRpErr : Option Int
  indxInsErr : Option Int
  posixAcl : Bool
  aclErr : Option Int
  writeRunErr : Option Int
  deriving Repr, DecidableEq

structure CreateOut where
  err : Int
  res : FsRes
  deriving Repr, DecidableEq

/-- Label out3 (src/inode.c:1658-1659): `ntfs_mark_rec_free` returns the
record number to the free pool. -/
def undoOut3 (s : FsRes) : FsRes :=
  { s with reserved := false }

/-- Label out4 (src/inode.c:1648-1657): `clear_rec_inuse`, then falls
through to out3. -/
def undoOut4 (s : FsRes) : FsRes :=
  undoOut3 { s with recInUse := false }

/-- Label out5 (src/inode.c:1642-1646): `run_deallocate` unless the
inode is a directory or the run is empty, then falls through to out4. -/
def undoOut5 (isDir : Bool) (s : FsRes) : FsRes :=
  undoOut4 (if isDir ∨ s.clusters = 0 then s else { s with clusters := 0 })

/-- Label out6 (src/inode.c:1638-1640): `ntfs_remove_reparse` if the
reparse tag was registered, then falls through to out5. -/
def undoOut6 (isDir rpInserted : Bool) (s : FsRes) : FsRes :=
  undoOut5 isDir (if rpInserted then { s with reparseReg := false } else s)

/-- Label out7 (src/inode.c:1633-1637): undo `indx_insert_entry`, then
falls through to out6. -/
def undoOut7 (isDir rpInserted : Bool) (s : FsRes) : FsRes :=
  undoOut6 isDir rpInserted { s with indexEntry := false }

/-- Tail of the create sequence starting at `indx_insert_entry`
(src/inode.c:1567), through ACL initialization (:1602-1615) and the
non-resident reparse payload write (:1617-1622).  `nonResLink` is true
when `nsize` stayed non-zero, i.e. the symlink payload went
non-resident. -/
def createTail (isDir isLink rpInserted nonResLink : Bool) (env : CreateEnv)
    (s : FsRes) : CreateOut :=
  match env.indxInsErr with
  | some e => { err := e, res := undoOut6 isDir rpInserted s }
  | none =>
    let s := { s with indexEntry := true }
    -- CONFIG_NTFS3_FS_POSIX_ACL ∧ SB_POSIXACL: `if (err) goto out6;`
    -- (note: out6, not out7 — the inserted index entry is not removed)
    match (if ¬isLink ∧ env.posixAcl then env.aclErr else none) with
    | some e => { err := e, res := undoOut6 isDir rpInserted s }
    | none =>
      match (if nonResLink then env.writeRunErr else none) with
      | some e => { err := e, res := undoOut7 isDir rpInserted s }
      | none => { err := 0, res := s }

/-- Symlink branch of the attribute build (src/inode.c:1487-1558):
build the reparse buffer, append it resident or non-resident (allocating
clusters and packing the run in the latter case), then register the
reparse tag. -/
def createLinkAttrs (env : CreateEnv) (s : FsRes) : CreateOut :=
  match env.rpBufErr with
  | some e => { err := e, res := undoOut4 s }
  | none =>
    if env.rpNonRes then
      match env.allocErr with
      | some e => { err := e, res := undoOut5 false s }
      | none =>
        let s := { s with clusters := env.rpClusters }
        match env.runPackErr with
        | some e => { err := e, res := undoOut5 false s }
        | none =>
          if ¬env.runPackVcnOk then
            { err := eINVAL, res := undoOut5 false s }
          else
            match env.insRpErr with
            | some e => { err := e, res := undoOut5 false s }
            | none => createTail false true true true env s
    else
      match env.insRpErr with
      | some e => { err := e, res := undoOut5 false s }
      | none => createTail false true true false env s

/-- Shallow embedding of `ntfs_create_inode` (src/inode.c:1200-1672),
tracking the externally visible resources of `FsRes`.  The in-record
attribute fills (standard info, file name, security, index root / data)
are record-local writes; the record counts as "filled" once the header
and STANDARD_INFO are in place (right before `fill_name_de`). -/
def ntfsCreateInode (kind : FileKind) (env : CreateEnv) : CreateOut :=
  if kind = FileKind.chrDev ∨ kind = FileKind.blkDev ∨
      kind = FileKind.fifo ∨ kind = FileKind.sock then
    { err := eOPNOTSUPP, res := FsRes.init }
  else if ¬env.dirRootOk then
    { err := eINVAL, res := FsRes.init }
  else if ¬env.getnameOk then
    { err := eNOMEM, res := FsRes.init }
  else
    match env.mftErr with
    | some e => { err := e, res := FsRes.init }
    | none =>
      let s : FsRes := { FsRes.init with reserved := true }
      match env.newInodeErr with
      | some e => { err := e, res := undoOut3 s }
      | none =>
        let s := { s with recInUse := true }
        -- record header + STANDARD_INFO now filled (src/inode.c:1322-1366)
        match env.fillNameErr with
        | some e => { err := e, res := undoOut4 s }
        | none =>
          if kind = FileKind.dir then
            match env.indxInitErr with
            | some e => { err := e, res := undoOut4 s }
            | none => createTail true false false false env s
          else if kind = FileKind.lnk then
            createLinkAttrs env s
          else
            createTail false false false false env s

/-! ## Unlink: `ntfs_unlink_inode` (src/inode.c:1741-1851) -/

/-- Outcomes of the external calls made by `ntfs_unlink_inode`:
`indx_get_root`, `dir_is_empty`, `ntfs_is_meta_file`, `__getname`,
`ntfs_nls_to_utf16`, `ni_fname_name`, the two `indx_delete_entry` calls
and the paired short/long name lookup. -/
structure UnlinkEnv where
  dirRootOk : Bool
  isDir : Bool
  dirEmpty : Bool
  isMeta : Bool
  getnameOk : Bool
  nlsErr : Option Int
  fnameFound : Bool
  delErr : Option Int
  hasPairedType : Bool
  pairedFound : Bool
  pairedDelErr : Option Int
  deriving Repr, DecidableEq

/-- State mutated by `ntfs_unlink_inode`: directory-index entries for
this file, the record's FILE_NAME attributes, the record's hard-link
counter, the vfs link count, and the bad-inode mark. -/
structure UnlinkState where
  indexEntries : Nat
  fnameAttrs : Nat
  hardLinks : Nat
  nlink : Nat
  bad : Bool
  deriving Repr, DecidableEq

/-- The out3 tail of `ntfs_unlink_inode` (src/inode.c:1828-1838):
`drop_nlink` on success (the `case 0` falls through), tolerated errors
pass, any other error marks the inode bad. -/
def unlinkOut3 (err : Int) (st : UnlinkState) : Int × UnlinkState :=
  if err = 0 then (0, { st with nlink := st.nlink - 1 })
  else if err = eNOTEMPTY ∨ err = -28 ∨ err = -30 then (err, st)
  else (err, { st with bad := true })

/-- Shallow embedding of `ntfs_unlink_inode` (src/inode.c:1741-1851). -/
def ntfsUnlinkInode (env : UnlinkEnv) (st : UnlinkState) : Int × UnlinkState :=
  if ¬env.dirRootOk then (eINVAL, st)
  else if env.isDir ∧ ¬env.dirEmpty then (eNOTEMPTY, st)
  else if env.isMeta then (eINVAL, st)
  else if ¬env.getnameOk then (eNOMEM, st)
  else
    match env.nlsErr with
    | some e => (e, st)
    | none =>
      if ¬env.fnameFound then unlinkOut3 eNOENT st
      else
        match env.delErr with
        | some e => unlinkOut3 e st
        | none =>
          let st := { st with indexEntries := st.indexEntries - 1,
                              fnameAttrs := st.fnameAttrs - 1,
                              hardLinks := st.hardLinks - 1 }
          if env.hasPairedType ∧ env.pairedFound then
            match env.pairedDelErr with
            | some e => unlinkOut3 e st
            | none =>
              unlinkOut3 0 { st with indexEntries := st.indexEntries - 1,
                                     fnameAttrs := st.fnameAttrs - 1,
                                     hardLinks := st.hardLinks - 1 }
          else unlinkOut3 0 st

/-! ## Record parse: `ntfs_read_mft` (src/inode.c:31-468) and
`ntfs_iget5` (src/inode.c:486-505)

The attribute stream yielded by the external enumerator
`ni_enum_attr_ex` is modelled as a list of items; the switch over
`attr->type` becomes `mftStep`.  The embedding covers base records of
ordinary files/directories (not the MFT/BADCLUST/SECURE system records,
whose special cases are guarded by `ino == ...` tests in the source);
ATTR_LIST / ATTR_ALLOC / ATTR_BITMAP / ATTR_REPARSE / ATTR_EA_INFO
items, which the claims do not exercise, fall under `other` (skipped
like the `default` case for the state tracked here). -/

/-- Header validation of `ntfs_read_mft` (src/inode.c:81-98): the
sequence check is skipped during log replay; then the in-use flag and
the record's total size are validated. -/
def readMftHeaderCheck (logReplay : Bool) (refSeq recSeq : Nat)
    (inuse : Bool) (recTotal recordSize : Nat) : Except Int Unit :=
  if logReplay then
    if recTotal ≠ recordSize then Except.error eINVAL else Except.ok ()
  else if refSeq ≠ recSeq then Except.error eINVAL
  else if ¬inuse then Except.error eINVAL
  else if recTotal ≠ recordSize then Except.error eINVAL
  else Except.ok ()

/-- sizeof(struct ATTR_STD_INFO) -/
def stdInfoSize : Nat := 48

/-- sizeof(struct ATTR_STD_INFO5) -/
def stdInfo5Size : Nat := 72

/-- SIZEOF_ATTRIBUTE_FILENAME -/
def fileNameSize : Nat := 66

def faSparse : Nat := 0x200

def faCompressed : Nat := 0x800

def faEncrypted : Nat := 0x4000

def faDirectory : Nat := 0x10

def setFlag (n bit : Nat) : Nat := n ||| bit

/-- Clear the bits of `bit` in `n` (the masked bits are a subset of `n`,
so plain subtraction clears them). -/
def clearFlag (n bit : Nat) : Nat := n - (n &&& bit)

/-- Payload of a resident STANDARD_INFO attribute. -/
structure StdPayload where
  crTime : Nat
  aTime : Nat
  cTime : Nat
  mTime : Nat
  fa : Nat
  secId : Nat
  deriving Repr, DecidableEq

/-- One item of the attribute stream, with the header fields the switch
of `ntfs_read_mft` inspects (`non_res`, `size`, `res.data_size`,
`res.data_off`) and the payload fields it reads. -/
inductive AttrItem
  | std (nonRes : Bool) (asize rsize roff : Nat) (p : StdPayload)
  | fname (nonRes : Bool) (asize rsize roff : Nat) (isDos : Bool)
      (matchesName : Bool) (homeExtend : Bool)
  | adata (nonRes sparse compr encr : Bool) (rsize dataSize validSize : Nat)
  | aroot (nonRes : Bool) (isI30 : Bool) (typeOk : Bool)
  | other
  deriving Repr, DecidableEq

inductive MftMode
  | unknown
  | reg
  | dir
  deriving Repr, DecidableEq

/-- Parse state accumulated over the attribute stream, mirroring the
locals of `ntfs_read_mft` (`std5`, `names`, `is_match`, `fname`, `mode`)
and the inode fields it assigns. -/
structure MftState where
  std : Option StdPayload
  stdFa : Nat
  secId : Option Nat
  crTime : Nat
  aTime : Nat
  cTime : Nat
  mTime : Nat
  names : Nat
  isMatch : Bool
  lastFnameExtend : Option Bool
  mode : MftMode
  iSize : Nat
  iValid : Nat
  residentData : Bool
  deriving Repr, DecidableEq

def MftState.init : MftState :=
  { std := none, stdFa := 0, secId := none, crTime := 0, aTime := 0,
    cTime := 0, mTime := 0, names := 0, isMatch := false,
    lastFnameExtend := none, mode := MftMode.unknown, iSize := 0,
    iValid := 0, residentData := false }

/-- One iteration of the attribute switch of `ntfs_read_mft`
(src/inode.c:137-366), for a base record with directory flag
`isDirRec`. -/
def mftStep (isDirRec : Bool) (st : MftState) : AttrItem →
    Except Int MftState
  | AttrItem.std nonRes asize rsize roff p =>
    if nonRes ∨ asize < stdInfoSize + roff ∨ rsize < stdInfoSize then
      Except.error eINVAL
    else if st.std.isSome then Except.ok st
    else
      let st := { st with std := some p, crTime := p.crTime,
                          aTime := p.aTime, cTime := p.cTime,
                          mTime := p.mTime, stdFa := p.fa }
      if stdInfo5Size + roff ≤ asize ∧ stdInfo5Size ≤ rsize then
        Except.ok { st with secId := some p.secId }
      else Except.ok st
  | AttrItem.fname nonRes asize rsize roff isDos matchesName homeExtend =>
    if nonRes ∨ asize < fileNameSize + roff ∨ rsize < fileNameSize then
      Except.error eINVAL
    else
      let st := { st with lastFnameExtend := some homeExtend }
      if isDos then Except.ok st
      else
        Except.ok { st with names := st.names + 1,
                            isMatch := st.isMatch ∨ matchesName }
  | AttrItem.adata nonRes sparse compr encr rsize dataSize validSize =>
    if isDirRec then Except.ok st
    else
      let fa := if sparse then setFlag st.stdFa faSparse
                else clearFlag st.stdFa faSparse
      let fa := if compr then setFlag fa faCompressed
                else clearFlag fa faCompressed
      let fa := if encr then setFlag fa faEncrypted
                else clearFlag fa faEncrypted
      let st := { st with stdFa := fa, mode := MftMode.reg }
      if ¬nonRes then
        Except.ok { st with iValid := rsize, iSize := rsize,
                            residentData := true }
      else
        Except.ok { st with iValid := validSize, iSize := dataSize }
  | AttrItem.aroot nonRes isI30 typeOk =>
    if nonRes then Except.error eINVAL
    else if ¬isI30 then Except.ok st
    else if ¬typeOk then Except.error eINVAL
    else if ¬isDirRec then Except.ok st
    else Except.ok { st with mode := MftMode.dir }
  | AttrItem.other => Except.ok st

/-- Fold of `mftStep` over the attribute stream (the `next_attr` loop of
src/inode.c:116-377). -/
def mftParse (isDirRec : Bool) (st : MftState) : List AttrItem →
    Except Int MftState
  | [] => Except.ok st
  | a :: rest =>
    match mftStep isDirRec st a with
    | Except.error e => Except.error e
    | Except.ok st2 => mftParse isDirRec st2 rest

/-- Final inode produced when `ntfs_read_mft` succeeds. -/
structure InodeOut where
  mode : MftMode
  nlink : Nat
  fa : Nat
  iSize : Nat
  iValid : Nat
  secId : Option Nat
  deriving Repr, DecidableEq

/-- The `end_enum` checks of `ntfs_read_mft` (src/inode.c:379-452):
missing STANDARD_INFO and a zero non-DOS name count are invalid records;
a supplied lookup name that matched nothing is ENOENT; records that are
neither directory nor regular are only tolerated inside $Extend.  An
error return reaches `iget_failed` (src/inode.c:466), so the inode is
never exposed: exposure is exactly the `Except.ok` case. -/
def mftEnd (nameGiven : Bool) (st : MftState) : Except Int InodeOut :=
  if st.std.isNone then Except.error eINVAL
  else if nameGiven ∧ ¬st.isMatch then Except.error eNOENT
  else if st.names = 0 then Except.error eINVAL
  else
    match st.mode with
    | MftMode.dir =>
      Except.ok { mode := MftMode.dir, nlink := 1,
                  fa := setFlag st.stdFa faDirectory, iSize := st.iSize,
                  iValid := 0, secId := st.secId }
    | MftMode.reg =>
      Except.ok { mode := MftMode.reg, nlink := st.names,
                  fa := clearFlag st.stdFa faDirectory, iSize := st.iSize,
                  iValid := st.iValid, secId := st.secId }
    | MftMode.unknown =>
      if st.lastFnameExtend = some true then
        Except.ok { mode := MftMode.unknown, nlink := 0, fa := st.stdFa,
                    iSize := st.iSize, iValid := st.iValid,
                    secId := st.secId }
      else Except.error eINVAL

/-- Shallow embedding of `ntfs_read_mft` for a base record: header
validation, attribute enumeration, final checks.  An `Except.error`
result is the `out:` path of the source, which calls `iget_failed`. -/
def ntfsReadMft (logReplay : Bool) (refSeq recSeq : Nat) (inuse : Bool)
    (recTotal recordSize : Nat) (isDirRec : Bool) (attrs : List AttrItem)
    (nameGiven : Bool) : Except Int InodeOut :=
  match readMftHeaderCheck logReplay refSeq recSeq inuse recTotal recordSize
      with
  | Except.error e => Except.error e
  | Except.ok _ =>
    match mftParse isDirRec MftState.init attrs with
    | Except.error e => Except.error e
    | Except.ok st => mftEnd nameGiven st

inductive Iget5Out
  | fresh (r : Except Int InodeOut)
  | cachedBad
  | cachedOk

/-- Shallow embedding of `ntfs_iget5` (src/inode.c:486-505): a freshly
allocated inode is read via `ntfs_read_mft`; an already-cached inode is
marked bad (`make_bad_inode`) when the reference's sequence number does
not match the cached record's. -/
def ntfsIget5 (isNewInode : Bool) (freshRes : Except Int InodeOut)
    (refSeq recSeq : Nat) : Iget5Out :=
  if isNewInode then Iget5Out.fresh freshRes
  else if refSeq ≠ recSeq then Iget5Out.cachedBad
  else Iget5Out.cachedOk

/-! ## Reparse codec: `ntfs_create_reparse_buffer` (src/inode.c:1131-1197)
and `ntfs_readlink_hlp` (src/inode.c:1866-2017)

Paths are lists of UTF-16 code units (`Nat`).  The external
`ntfs_nls_to_utf16` / `ntfs_utf16_to_nls` codecs (§6 `name_to_wide` /
`wide_to_name`) are modelled as the identity on code units. -/

def slashW : Nat := 47

def backslashW : Nat := 92

def tagSymlink : Nat := 0xA000000C

/-- offsetof(struct REPARSE_DATA_BUFFER, SymbolicLinkReparseBuffer.PathBuffer):
4 (tag) + 2 (data length) + 2 (reserved) + 8 (offsets/lengths) + 4 (flags). -/
def reparseHdrBytes : Nat := 20

/-- `ntfs_reparse_bytes` (src/inode.c:1123-1129): header plus unicode
string plus decorated unicode string. -/
def ntfsReparseBytes (uniLen : Nat) : Nat :=
  2 * (2 * uniLen + 4) + reparseHdrBytes

/-- A symlink reparse payload as laid out by the encoder: header fields
plus the PathBuffer code units ([0, len) print name, then the
`\??\`-decorated substitute name). -/
structure ReparseBuf where
  tag : Nat
  dataLength : Nat
  subOff : Nat
  subLen : Nat
  prOff : Nat
  prLen : Nat
  flags : Nat
  path : List Nat
  deriving Repr, DecidableEq

/-- Shallow embedding of `ntfs_create_reparse_buffer`
(src/inode.c:1131-1197): convert the target to UTF-16, reject payloads
over the volume's maximum reparse size, translate `/` to `\`, and lay
out PrintName (offset 0) followed by the `\??\`-prefixed
SubstituteName. -/
def ntfsCreateReparseBuffer (maxSize : Nat) (symname : List Nat) :
    Except Int ReparseBuf :=
  let uni := symname
  let uniLen := uni.length
  let nsize := ntfsReparseBytes uniLen
  if maxSize < nsize then Except.error eFBIG
  else
    let tr := uni.map fun c => if c = slashW then backslashW else c
    Except.ok
      { tag := tagSymlink,
        dataLength := nsize - 8,
        subOff := 2 * uniLen,
        subLen := 2 * uniLen + 8,
        prOff := 0,
        prLen := 2 * uniLen,
        flags := 0,
        path := tr ++ [backslashW, 63, 63, backslashW] ++ tr }

/-- Shallow embedding of the symlink-tag branch of `ntfs_readlink_hlp`
(src/inode.c:1866-2017): size sanity checks, PrintName extraction by
declared offset/length, bounds validation against `i_size`, truncation
of a trailing embedded terminator, and `\` to `/` translation.  The
mount-point / cloud-placeholder / vendor-tag branches of the source
dispatch on other tags and are outside this embedding (the encoder only
produces the symlink tag); they are rendered here as the same
`-EINVAL` rejection the function starts from. -/
def ntfsReadlinkHlp (maxSize iSize buflen : Nat) (rp : ReparseBuf) :
    Except Int (List Nat) :=
  if maxSize < iSize ∨ iSize ≤ 4 then Except.error eINVAL
  else if rp.tag = tagSymlink then
    if iSize ≤ reparseHdrBytes then Except.error eINVAL
    else
      let nlen := rp.prLen / 2
      let name := rp.path.drop (rp.prOff / 2)
      if nlen = 0 ∨ iSize < reparseHdrBytes + rp.prOff + 2 * nlen then
        Except.error eINVAL
      else
        let nlen := if name.getD (nlen - 1) 0 = 0 then nlen - 1 else nlen
        if buflen < nlen then Except.error eINVAL
        else
          Except.ok ((name.take nlen).map fun c =>
            if c = backslashW then slashW else c)
  else Except.error eINVAL

/-! ## Concrete inputs used by evaluation theorems and witnesses -/

/-- Environment for a regular-file create on a POSIX-ACL mount where
every collaborator succeeds except `ntfs_init_acl`, which fails after
`indx_insert_entry` already inserted the directory entry. -/
def c1AclFailEnv : CreateEnv :=
  { dirRootOk := true, getnameOk := true, mftErr := none,
    newInodeErr := none, fillNameErr := none, indxInitErr := none,
    rpBufErr := none, rpNonRes := false, rpClusters := 0, allocErr := none,
    runPackErr := none, runPackVcnOk := true, insRpErr := none,
    indxInsErr := none, posixAcl := true, aclErr := some eNOMEM,
    writeRunErr := none }

/-- Environment for the spec's Scenario D: symlink create whose reparse
payload goes non-resident (clusters reserved), where `indx_insert_entry`
fails. -/
def scenarioDEnv : CreateEnv :=
  { dirRootOk := true, getnameOk := true, mftErr := none,
    newInodeErr := none, fillNameErr := none, indxInitErr := none,
    rpBufErr := none, rpNonRes := true, rpClusters := 3, allocErr := none,
    runPackErr := none, runPackVcnOk := true, insRpErr := none,
    indxInsErr := some eNOMEM, posixAcl := false, aclErr := none,
    writeRunErr := none }

/-- All-success create environment. -/
def okCreateEnv : CreateEnv :=
  { dirRootOk := true, getnameOk := true, mftErr := none,
    newInodeErr := none, fillNameErr := none, indxInitErr := none,
    rpBufErr := none, rpNonRes := false, rpClusters := 0, allocErr := none,
    runPackErr := none, runPackVcnOk := true, insRpErr := none,
    indxInsErr := none, posixAcl := false, aclErr := none,
    writeRunErr := none }

/-- Unlink environment: non-empty directory, everything else healthy. -/
def c6Env : UnlinkEnv :=
  { dirRootOk := true, isDir := true, dirEmpty := false, isMeta := false,
    getnameOk := true, nlsErr := none, fnameFound := true, delErr := none,
    hasPairedType := false, pairedFound := false, pairedDelErr := none }

def c6St : UnlinkState :=
  { indexEntries := 3, fnameAttrs := 1, hardLinks := 1, nlink := 1,
    bad := false }

/-- A well-formed resident STANDARD_INFO payload. -/
def stdP : StdPayload :=
  { crTime := 11, aTime := 12, cTime := 13, mTime := 14, fa := 0x20,
    secId := 7 }

/-- A second STANDARD_INFO payload with different contents, used to show
a duplicate contributes nothing. -/
def stdP2 : StdPayload :=
  { crTime := 91, aTime := 92, cTime := 93, mTime := 94, fa := 0x4,
    secId := 8 }

/-- Parse state after a single well-formed STANDARD_INFO attribute
carrying `stdP`. -/
def afterStdP : MftState :=
  { std := some stdP, stdFa := 0x20, secId := none, crTime := 11,
    aTime := 12, cTime := 13, mTime := 14, names := 0, isMatch := false,
    lastFnameExtend := none, mode := MftMode.unknown, iSize := 0,
    iValid := 0, residentData := false }

/-! ## Theorems settling the claims -/

/-- C10: for every create request whose mode is a character device,
block device, FIFO, or socket, `ntfs_create_inode` fails with
`-EOPNOTSUPP` before reserving a record, allocating clusters, or
touching the parent index: the returned resource state is the initial
(empty) one, whatever the collaborator environment. -/
theorem c10_create_special_mode_rejected (kind : FileKind)
    (env : CreateEnv)
    (h : kind = FileKind.chrDev ∨ kind = FileKind.blkDev ∨
      kind = FileKind.fifo ∨ kind = FileKind.sock) :
    ntfsCreateInode kind env = { err := eOPNOTSUPP, res := FsRes.init } := by
  unfold ntfsCreateInode
  rw [if_pos h]

theorem c10_create_special_mode_rejected_witness :
    (FileKind.chrDev = FileKind.chrDev ∨ FileKind.chrDev = FileKind.blkDev ∨
      FileKind.chrDev = FileKind.fifo ∨ FileKind.chrDev = FileKind.sock) ∧
    ntfsCreateInode FileKind.chrDev okCreateEnv
      = { err := eOPNOTSUPP, res := FsRes.init } :=
  ⟨Or.inl rfl,
   c10_create_special_mode_rejected FileKind.chrDev okCreateEnv
     (Or.inl rfl)⟩

/-- C1: the claim asserts that every failure of the create sequence at
or after the record has been filled undoes the inserted directory-index
entry.  The code violates this on the ACL-initialization path: when
`ntfs_init_acl` fails after `indx_insert_entry` succeeded, the source
jumps to out6 (src/inode.c:1610), skipping the `indx_delete_entry` undo
at out7 — the record is freed and its in-use flag cleared, yet the
directory-index entry remains inserted.  This theorem evaluates the
create sequence at that failing input.  (The highlighted Scenario D
failure — index insert failing after clusters were reserved for a
non-resident reparse payload — is handled correctly, as the second
conjunct shows: clusters freed, reparse registration removed, record
returned to the pool.) -/
theorem c1_create_undo_acl_index_leak :
    (ntfsCreateInode FileKind.reg c1AclFailEnv
      = { err := eNOMEM,
          res := { reserved := false, recInUse := false, clusters := 0,
                   reparseReg := false, indexEntry := true } }) ∧
    (ntfsCreateInode FileKind.lnk scenarioDEnv
      = { err := eNOMEM, res := FsRes.init }) := by
  constructor
  · rfl
  · rfl

/-- C6: when a directory still contains index entries (`dir_is_empty`
false), `ntfs_unlink_inode` fails with `-ENOTEMPTY` and mutates nothing:
no directory-index entry is removed, no FILE_NAME attribute is removed,
and neither the record's hard-link counter nor the vfs link count is
decremented. -/
theorem c6_unlink_nonempty_dir_rejected (env : UnlinkEnv)
    (st : UnlinkState) (hroot : env.dirRootOk = true)
    (hdir : env.isDir = true) (hne : env.dirEmpty = false) :
    ntfsUnlinkInode env st = (eNOTEMPTY, st) := by
  unfold ntfsUnlinkInode
  rw [if_neg (by simp [hroot]), if_pos (by simp [hdir, hne])]

theorem c6_unlink_nonempty_dir_rejected_witness :
    (c6Env.dirRootOk = true ∧ c6Env.isDir = true ∧ c6Env.dirEmpty = false) ∧
    ntfsUnlinkInode c6Env c6St = (eNOTEMPTY, c6St) :=
  ⟨⟨rfl, rfl, rfl⟩, c6_unlink_nonempty_dir_rejected c6Env c6St rfl rfl rfl⟩

/-- C4: when log replay is not in progress and the reference's sequence
number differs from the one stamped in the record, `ntfs_read_mft`
rejects the lookup with `-EINVAL` (the record's content is never
parsed), and `ntfs_iget5` marks an already-cached inode bad on the same
mismatch. -/
theorem c4_stale_reference_rejected (refSeq recSeq : Nat) (inuse : Bool)
    (recTotal recordSize : Nat) (isDirRec : Bool) (attrs : List AttrItem)
    (nameGiven : Bool) (freshRes : Except Int InodeOut)
    (hseq : refSeq ≠ recSeq) :
    ntfsReadMft false refSeq recSeq inuse recTotal recordSize isDirRec attrs
        nameGiven = Except.error eINVAL ∧
    ntfsIget5 false freshRes refSeq recSeq = Iget5Out.cachedBad := by
  constructor
  · unfold ntfsReadMft readMftHeaderCheck
    simp [hseq]
  · unfold ntfsIget5
    simp [hseq]

theorem c4_stale_reference_rejected_witness :
    (3 : Nat) ≠ 4 ∧
    (ntfsReadMft false 3 4 true 1024 1024 false [] false
        = Except.error eINVAL ∧
      ntfsIget5 false (Except.error 0) 3 4 = Iget5Out.cachedBad) :=
  ⟨by decide,
   c4_stale_reference_rejected 3 4 true 1024 1024 false [] false
     (Except.error 0) (by decide)⟩

/-- C5: for every request at or beyond `data_size` the resolver returns
success and maps nothing, whatever the `create` flag: the buffer head
comes back with `new` and `uptodate` cleared and `mapped` exactly as it
went in (never set), `ni->i_valid` is untouched and the page is not
written.  In particular resolving offset 0 of an empty file reports
beyond EOF this way. -/
theorem c5_beyond_eof_maps_nothing (sbi : SbInfo) (ni : NiState)
    (vbo : Nat) (bh0 : BhState) (create : Bool) (ctx : GbCtx)
    (lk : BlockLookup) (resErr : Int) (readOk : Bool)
    (physRead page0 : Nat → Nat) (h : ni.iSize ≤ vbo) :
    getBlockVbo sbi ni vbo bh0 create ctx lk resErr readOk physRead page0
      = { err := 0, bh := { bh0 with isNew := false, uptodate := false },
          iValid := ni.iValid, page := page0 } := by
  unfold getBlockVbo
  by_cases hc : (!create ∧ ni.iValid ≤ vbo)
  · rw [if_pos hc]
  · rw [if_neg hc, if_pos h]

theorem c5_beyond_eof_maps_nothing_witness :
    ((0 : Nat) ≤ 0) ∧
    getBlockVbo { clusterBits := 12, blockSize := 4096 }
        { iValid := 0, iSize := 0, resident := false } 0
        { mapped := false, isNew := false, uptodate := false,
          bSize := 4096, blocknr := 0 } false GbCtx.general
        { err := 0, lcn := none, len := 0, isNew := false } 0 true
        (fun _ => 0) (fun _ => 0)
      = { err := 0,
          bh := { mapped := false, isNew := false, uptodate := false,
                  bSize := 4096, blocknr := 0 },
          iValid := 0, page := fun _ => 0 } :=
  ⟨Nat.le_refl 0,
   c5_beyond_eof_maps_nothing { clusterBits := 12, blockSize := 4096 }
     { iValid := 0, iSize := 0, resident := false } 0
     { mapped := false, isNew := false, uptodate := false, bSize := 4096,
       blocknr := 0 } false GbCtx.general
     { err := 0, lcn := none, len := 0, isNew := false } 0 true
     (fun _ => 0) (fun _ => 0) (Nat.le_refl 0)⟩

/-- C2: for a non-resident file read (`create = false`) whose block
straddles `valid_size` (`vbo < valid < vbo + block_size ≤ data_size`),
the resolver reads the block itself and then zeroes the tail: every byte
of the returned page below `valid_size` is the physical byte, and every
byte at or after `valid_size` (within the block) is zero — the stale
physical bytes past `valid_size` are never exposed. -/
theorem c2_read_across_valid_zeroes_tail (sbi : SbInfo) (ni : NiState)
    (vbo : Nat) (bh0 : BhState) (ctx : GbCtx) (lk : BlockLookup)
    (resErr : Int) (physRead page0 : Nat → Nat)
    (hres : ni.resident = false) (hctx : ctx ≠ GbCtx.dioW)
    (herr : lk.err = 0) (hlen : lk.len ≠ 0) (hlcn : lk.lcn ≠ none)
    (hlow : vbo < ni.iValid) (hstraddle : ni.iValid < vbo + sbi.blockSize)
    (hsize : vbo + sbi.blockSize ≤ ni.iSize)
    (hbytes : sbi.blockSize ≤
      lk.len * 2 ^ sbi.clusterBits - vbo % 2 ^ sbi.clusterBits) :
    (getBlockVbo sbi ni vbo bh0 false ctx lk resErr true physRead
        page0).err = 0 ∧
    (getBlockVbo sbi ni vbo bh0 false ctx lk resErr true physRead
        page0).bh.mapped = true ∧
    (getBlockVbo sbi ni vbo bh0 false ctx lk resErr true physRead
        page0).bh.bSize = sbi.blockSize ∧
    (∀ i, vbo + i < ni.iValid →
      (getBlockVbo sbi ni vbo bh0 false ctx lk resErr true physRead
        page0).page i = physRead i) ∧
    (∀ i, ni.iValid ≤ vbo + i → i < sbi.blockSize →
      (getBlockVbo sbi ni vbo bh0 false ctx lk resErr true physRead
        page0).page i = 0) := by
  unfold getBlockVbo
  dsimp only
  rw [if_neg (by simp; omega), if_neg (by omega), hres, if_neg (by simp),
    if_neg (by simp [herr]), if_neg hlen, if_neg (by simp [hlcn]),
    if_neg hctx, if_neg (by simp), if_neg (by omega), if_neg (by omega),
    if_neg (by omega), if_neg (by omega), if_neg (by simp)]
  refine ⟨rfl, rfl, rfl, ?_, ?_⟩
  · intro i hi
    have h1 : ¬(ni.iValid - vbo ≤ i ∧ i < sbi.blockSize) := by omega
    dsimp only
    rw [if_neg h1, if_pos (by omega)]
  · intro i h1 h2
    dsimp only
    rw [if_pos (by omega)]

theorem c2_read_across_valid_zeroes_tail_witness :
    ((2048 : Nat) < 4096 ∧ (4096 : Nat) < 2048 + 4096 ∧
      (2048 : Nat) + 4096 ≤ 10000) ∧
    (getBlockVbo { clusterBits := 13, blockSize := 4096 }
        { iValid := 4096, iSize := 10000, resident := false } 2048
        { mapped := false, isNew := false, uptodate := false,
          bSize := 4096, blocknr := 0 } false GbCtx.general
        { err := 0, lcn := some 5, len := 1, isNew := false } 0 true
        (fun _ => 7) (fun _ => 9)).page 2952 = 0 ∧
    (getBlockVbo { clusterBits := 13, blockSize := 4096 }
        { iValid := 4096, iSize := 10000, resident := false } 2048
        { mapped := false, isNew := false, uptodate := false,
          bSize := 4096, blocknr := 0 } false GbCtx.general
        { err := 0, lcn := some 5, len := 1, isNew := false } 0 true
        (fun _ => 7) (fun _ => 9)).page 100 = 7 := by
  have h := c2_read_across_valid_zeroes_tail
    { clusterBits := 13, blockSize := 4096 }
    { iValid := 4096, iSize := 10000, resident := false } 2048
    { mapped := false, isNew := false, uptodate := false, bSize := 4096,
      blocknr := 0 } GbCtx.general
    { err := 0, lcn := some 5, len := 1, isNew := false } 0
    (fun _ => 7) (fun _ => 9) rfl (by decide) rfl (by decide) (by decide)
    (by decide) (by decide) (by decide) (by decide)
  exact ⟨by decide, h.2.2.2.2 2952 (by decide) (by decide),
    h.2.2.2.1 100 (by decide)⟩

/-- C3: write paths that extend past `valid_size` advance it to cover
exactly the newly written span.  First conjunct (normal write through
the resolver, `create = true`, non-direct-IO): when the write block
starts at or past the old `valid_size`, the new `valid_size` is exactly
`vbo + min(run bytes, b_size)` — at least the old value, at most the end
of the written block, never further.  Second conjunct (direct-IO write
path): `valid_size` becomes the maximum of its old value and the end of
the written span `vbo + ret`, again never beyond it.  Third conjunct:
the caller-side obligation (modelled from the spec, see
`writerExtendContent`) zero-fills the whole gap between the old
`valid_size` and the start of a write that begins above it, so no
uninitialized byte lies below the advanced `valid_size`. -/
theorem c3_valid_size_advance (sbi : SbInfo) (ni : NiState) (vbo : Nat)
    (bh0 : BhState) (ctx : GbCtx) (lk : BlockLookup) (resErr : Int)
    (readOk : Bool) (physRead page0 : Nat → Nat) (valid2 vbo2 len2 : Nat)
    (content data : Nat → Nat) (ret : Int)
    (hres : ni.resident = false) (hctx : ctx ≠ GbCtx.dioW)
    (hsz : vbo < ni.iSize) (herr : lk.err = 0) (hlen : lk.len ≠ 0)
    (hv : ni.iValid ≤ vbo) (hret : 0 < ret) :
    ((getBlockVbo sbi ni vbo bh0 true ctx lk resErr readOk physRead
        page0).iValid
      = vbo + min (lk.len * 2 ^ sbi.clusterBits - vbo % 2 ^ sbi.clusterBits)
          bh0.bSize ∧
      ni.iValid ≤ (getBlockVbo sbi ni vbo bh0 true ctx lk resErr readOk
        physRead page0).iValid ∧
      (getBlockVbo sbi ni vbo bh0 true ctx lk resErr readOk physRead
        page0).iValid ≤ vbo + bh0.bSize) ∧
    dioWriteEndValid valid2 vbo2 ret false = max valid2 (vbo2 + ret.toNat) ∧
    (∀ j, valid2 ≤ j → j < vbo2 →
      writerExtendContent content valid2 vbo2 len2 data j = 0) := by
  refine ⟨?_, ?_, ?_⟩
  · unfold getBlockVbo
    dsimp only
    by_cases hnew : lk.isNew = true
    · rw [if_neg (by simp), if_neg (by omega), hres, if_neg (by simp),
        if_neg (by simp [herr]), if_neg hlen, if_neg (by simp),
        if_pos (show true = true ∧ lk.isNew = true from ⟨rfl, hnew⟩),
        if_neg hctx, if_pos rfl, if_pos hv]
      refine ⟨rfl, by dsimp only; omega, by dsimp only; omega⟩
    · rw [if_neg (by simp), if_neg (by omega), hres, if_neg (by simp),
        if_neg (by simp [herr]), if_neg hlen, if_neg (by simp),
        if_neg (show ¬(true = true ∧ lk.isNew = true) by simp [hnew]),
        if_neg hctx, if_pos rfl, if_pos hv]
      refine ⟨rfl, by dsimp only; omega, by dsimp only; omega⟩
  · unfold dioWriteEndValid
    rw [if_neg (by omega)]
    by_cases hc : valid2 < vbo2 + ret.toNat
    · rw [if_pos (by simp [hc])]
      omega
    · rw [if_neg (by simp [hc])]
      omega
  · intro j hj1 hj2
    unfold writerExtendContent
    rw [if_pos hj2, if_pos hj1]

theorem c3_valid_size_advance_witness :
    ((1000 : Nat) ≤ 4096 ∧ (0 : Int) < 200) ∧
    (getBlockVbo { clusterBits := 12, blockSize := 4096 }
        { iValid := 1000, iSize := 50000, resident := false } 4096
        { mapped := false, isNew := false, uptodate := false,
          bSize := 4096, blocknr := 0 } true GbCtx.general
        { err := 0, lcn := some 2, len := 1, isNew := true } 0 true
        (fun _ => 0) (fun _ => 0)).iValid = 8192 ∧
    dioWriteEndValid 100 300 200 false = 500 ∧
    writerExtendContent (fun _ => 5) 100 300 50 (fun _ => 5) 150 = 0 := by
  have h := c3_valid_size_advance { clusterBits := 12, blockSize := 4096 }
    { iValid := 1000, iSize := 50000, resident := false } 4096
    { mapped := false, isNew := false, uptodate := false, bSize := 4096,
      blocknr := 0 } GbCtx.general
    { err := 0, lcn := some 2, len := 1, isNew := true } 0 true
    (fun _ => 0) (fun _ => 0) 100 300 50 (fun _ => 5) (fun _ => 5) 200
    rfl (by decide) (by decide) rfl (by decide) (by decide) (by decide)
  exact ⟨⟨by decide, by decide⟩, h.1.1.trans (by decide),
    h.2.1.trans (by decide), h.2.2 150 (by decide) (by decide)⟩

/-- The only attribute step that can set `is_match` (a valid non-DOS
FILE_NAME whose name compares equal, src/inode.c:184-188) also
increments `names`, and no step ever decrements `names` or clears
`is_match`; so a state with a match has at least one counted name. -/
theorem mftStep_match_le_names (isDirRec : Bool) (st : MftState)
    (a : AttrItem) (st2 : MftState)
    (hs : mftStep isDirRec st a = Except.ok st2)
    (hP : st.isMatch = true → 1 ≤ st.names) :
    st2.isMatch = true → 1 ≤ st2.names := by
  cases a with
  | std nonRes asize rsize roff p =>
    simp only [mftStep] at hs
    split at hs
    · cases hs
    · split at hs
      · cases hs
        exact hP
      · split at hs
        · cases hs
          exact hP
        · cases hs
          exact hP
  | fname nonRes asize rsize roff isDos matchesName homeExtend =>
    simp only [mftStep] at hs
    split at hs
    · cases hs
    · split at hs
      · cases hs
        exact hP
      · cases hs
        intro _
        dsimp only
        omega
  | adata nonRes sparse compr encr rsize dataSize validSize =>
    simp only [mftStep] at hs
    split at hs
    · cases hs
      exact hP
    · split at hs
      · cases hs
        exact hP
      · cases hs
        exact hP
  | aroot nonRes isI30 typeOk =>
    simp only [mftStep] at hs
    split at hs
    · cases hs
    · split at hs
      · cases hs
        exact hP
      · split at hs
        · cases hs
        · split at hs
          · cases hs
            exact hP
          · cases hs
            exact hP
  | other =>
    simp only [mftStep] at hs
    cases hs
    exact hP

/-- Lifting of `mftStep_match_le_names` over the whole enumeration. -/
theorem mftParse_match_le_names (isDirRec : Bool) (l : List AttrItem) :
    ∀ st st2, mftParse isDirRec st l = Except.ok st2 →
      (st.isMatch = true → 1 ≤ st.names) →
      st2.isMatch = true → 1 ≤ st2.names := by
  induction l with
  | nil =>
    intro st st2 h hP
    simp only [mftParse] at h
    cases h
    exact hP
  | cons a rest ih =>
    intro st st2 h hP
    simp only [mftParse] at h
    cases hs : mftStep isDirRec st a with
    | error e =>
      rw [hs] at h
      cases h
    | ok stm =>
      rw [hs] at h
      exact ih stm st2 h (mftStep_match_le_names isDirRec st a stm hs hP)

/-- C9 counterexample: the claim says a base record with a zero non-DOS
names count fails with the invalid-record error.  On a by-name lookup
this is false: the no-match check (src/inode.c:384-388) runs before the
`!names` check (src/inode.c:397-400), so a cleanly-parsed record holding
only a STANDARD_INFO fails with `-ENOENT`, not `-EINVAL`, when a lookup
name was supplied. -/
theorem c9_zero_names_named_lookup_counterexample :
    ntfsReadMft false 5 5 true 1024 1024 false
        [AttrItem.std false 72 48 24 stdP] true
      = Except.error eNOENT ∧ eNOENT ≠ eINVAL :=
  ⟨rfl, by decide⟩

/-- C9 (amended): for every base record whose header validated cleanly:
with no STANDARD_INFO the read fails `-EINVAL` whatever the lookup mode;
with a zero non-DOS names count the plain by-reference lookup (no name
supplied) fails `-EINVAL`, while a by-name lookup fails `-ENOENT`
because the no-match check precedes the names check (a zero-names state
can never have matched, by `mftParse_match_le_names`).  Every one of
these errors is the `out:` path that calls `iget_failed`
(src/inode.c:466), so the inode is never exposed. -/
theorem c9_missing_std_or_names_rejected (logReplay : Bool)
    (refSeq recSeq : Nat) (inuse : Bool) (recTotal recordSize : Nat)
    (isDirRec : Bool) (attrs : List AttrItem) (nameGiven : Bool)
    (st : MftState)
    (hhdr : readMftHeaderCheck logReplay refSeq recSeq inuse recTotal
      recordSize = Except.ok ())
    (hparse : mftParse isDirRec MftState.init attrs = Except.ok st) :
    (st.std = none →
      ntfsReadMft logReplay refSeq recSeq inuse recTotal recordSize
        isDirRec attrs nameGiven = Except.error eINVAL) ∧
    (st.names = 0 →
      ntfsReadMft logReplay refSeq recSeq inuse recTotal recordSize
        isDirRec attrs false = Except.error eINVAL) ∧
    (st.std.isSome = true → st.names = 0 →
      ntfsReadMft logReplay refSeq recSeq inuse recTotal recordSize
        isDirRec attrs true = Except.error eNOENT) := by
  refine ⟨?_, ?_, ?_⟩
  · intro h
    unfold ntfsReadMft
    rw [hhdr, hparse]
    unfold mftEnd
    dsimp only
    rw [if_pos (by simp [h, Option.isNone])]
  · intro h
    unfold ntfsReadMft
    rw [hhdr, hparse]
    unfold mftEnd
    dsimp only
    rcases hstd : st.std with _ | p
    · rw [if_pos (by simp [hstd, Option.isNone])]
    · rw [if_neg (by simp [hstd]), if_neg (by simp), if_pos h]
  · intro hstd h0
    have hnm : st.isMatch = false := by
      by_cases hm : st.isMatch = true
      · exfalso
        have h1 := mftParse_match_le_names isDirRec attrs MftState.init st
          hparse (by decide) hm
        omega
      · simpa using hm
    unfold ntfsReadMft
    rw [hhdr, hparse]
    unfold mftEnd
    dsimp only
    rcases hs2 : st.std with _ | p
    · rw [hs2] at hstd
      simp at hstd
    · rw [if_neg (by simp [hs2]), if_pos (by simp [hnm])]

theorem c9_missing_std_or_names_rejected_witness :
    (mftParse false MftState.init [AttrItem.std false 72 48 24 stdP]
        = Except.ok afterStdP ∧ afterStdP.names = 0 ∧
      mftParse false MftState.init ([] : List AttrItem)
        = Except.ok MftState.init ∧ MftState.init.std = none) ∧
    ntfsReadMft false 5 5 true 1024 1024 false
        [AttrItem.std false 72 48 24 stdP] false = Except.error eINVAL ∧
    ntfsReadMft false 5 5 true 1024 1024 false
        [AttrItem.std false 72 48 24 stdP] true = Except.error eNOENT ∧
    ntfsReadMft false 5 5 true 1024 1024 false ([] : List AttrItem) true
      = Except.error eINVAL := by
  have h := c9_missing_std_or_names_rejected false 5 5 true 1024 1024
    false [AttrItem.std false 72 48 24 stdP] true afterStdP rfl rfl
  have h2 := c9_missing_std_or_names_rejected false 5 5 true 1024 1024
    false ([] : List AttrItem) true MftState.init rfl rfl
  exact ⟨⟨rfl, rfl, rfl, rfl⟩, h.2.1 rfl, h.2.2 rfl rfl, h2.1 rfl⟩

/-- Splitting lemma for the attribute fold: parsing a concatenation is
parsing the prefix, then (on success) parsing the suffix from the
reached state. -/
theorem mftParse_append (isDirRec : Bool) (st : MftState)
    (l1 l2 : List AttrItem) :
    mftParse isDirRec st (l1 ++ l2) =
      match mftParse isDirRec st l1 with
      | Except.error e => Except.error e
      | Except.ok st2 => mftParse isDirRec st2 l2 := by
  induction l1 generalizing st with
  | nil => rfl
  | cons a rest ih =>
    simp only [List.cons_append, mftParse]
    cases mftStep isDirRec st a
    · rfl
    · exact ih _

/-- C8 counterexample: the claim says that in a record with more than
one STANDARD_INFO the later duplicates are "skipped without error".
The validity checks of the STD case (src/inode.c:139-142) run *before*
the duplicate skip (src/inode.c:144-145), so a malformed (here:
non-resident) second STANDARD_INFO aborts the parse with `-EINVAL`
instead of being skipped, while the same record without the duplicate
parses fine. -/
theorem c8_duplicate_std_counterexample :
    mftParse false MftState.init
        [AttrItem.std false 72 48 24 stdP, AttrItem.std true 72 48 24 stdP2]
      = Except.error eINVAL ∧
    (mftParse false MftState.init [AttrItem.std false 72 48 24 stdP]).isOk
      = true :=
  ⟨rfl, rfl⟩

/-- C8 (amended): in a base record whose enumeration already honored a
STANDARD_INFO, any later *well-formed* (resident, size-valid)
STANDARD_INFO duplicate is skipped without error and contributes
nothing: parsing with the duplicate inserted anywhere after the first
yields exactly the same result as parsing without it. -/
theorem c8_duplicate_std_first_wins (isDirRec : Bool)
    (l1 l2 : List AttrItem) (nonRes : Bool) (asize rsize roff : Nat)
    (p : StdPayload) (st : MftState)
    (hparse : mftParse isDirRec MftState.init l1 = Except.ok st)
    (hstd : st.std.isSome = true) (hres : nonRes = false)
    (hasz : stdInfoSize + roff ≤ asize) (hrsz : stdInfoSize ≤ rsize) :
    mftParse isDirRec MftState.init
        (l1 ++ AttrItem.std nonRes asize rsize roff p :: l2)
      = mftParse isDirRec MftState.init (l1 ++ l2) := by
  rw [mftParse_append, mftParse_append, hparse]
  dsimp only
  simp only [mftParse, mftStep]
  rw [if_neg (by simp [hres]; omega), if_pos hstd]

theorem c8_duplicate_std_first_wins_witness :
    (mftParse false MftState.init [AttrItem.std false 72 48 24 stdP]
        = Except.ok afterStdP ∧ afterStdP.std.isSome = true) ∧
    mftParse false MftState.init
        [AttrItem.std false 72 48 24 stdP, AttrItem.std false 72 48 24 stdP2]
      = mftParse false MftState.init [AttrItem.std false 72 48 24 stdP] :=
  ⟨⟨rfl, rfl⟩,
   c8_duplicate_std_first_wins false [AttrItem.std false 72 48 24 stdP] []
     false 72 48 24 stdP2 afterStdP rfl rfl rfl (by decide) (by decide)⟩

/-- C7 counterexample: the separator translation is lossy for a target
containing a literal backslash.  Encoding the one-character target `"\"`
(code unit 92) leaves it as a backslash in the payload, and decoding
translates every backslash to `/`: the round trip returns `"/"`, not the
original path. -/
theorem c7_symlink_roundtrip_counterexample :
    (ntfsCreateReparseBuffer 1024 [backslashW]).bind
        (ntfsReadlinkHlp 1024 (ntfsReparseBytes 1) 4096)
      = Except.ok [slashW] ∧ slashW ≠ backslashW :=
  ⟨rfl, by decide⟩

/-- C7 (amended): for every non-empty symlink target the encoder accepts
(payload within the volume's maximum reparse size) that contains neither
a backslash code unit nor an embedded NUL, encoding via
`ntfs_create_reparse_buffer` and decoding via `ntfs_readlink_hlp`
returns the original path: `/` is translated to `\` on encode and back
on decode, and no trailing terminator is present to truncate. -/
theorem c7_symlink_roundtrip (maxSize buflen : Nat) (s : List Nat)
    (hne : s ≠ []) (hchars : ∀ c ∈ s, c ≠ backslashW ∧ c ≠ 0)
    (hmax : ntfsReparseBytes s.length ≤ maxSize)
    (hbuf : s.length ≤ buflen) :
    (ntfsCreateReparseBuffer maxSize s).bind
        (ntfsReadlinkHlp maxSize (ntfsReparseBytes s.length) buflen)
      = Except.ok s := by
  have hL : 1 ≤ s.length := by
    cases s with
    | nil => exact absurd rfl hne
    | cons a t => simp
  simp only [ntfsReparseBytes, reparseHdrBytes] at hmax
  unfold ntfsCreateReparseBuffer
  rw [if_neg (by simp only [ntfsReparseBytes, reparseHdrBytes]; omega)]
  show ntfsReadlinkHlp maxSize (ntfsReparseBytes s.length) buflen _
    = Except.ok s
  unfold ntfsReadlinkHlp
  dsimp only
  simp only [ntfsReparseBytes, reparseHdrBytes, Nat.zero_div, List.drop_zero]
  rw [if_neg (by omega), if_pos trivial, if_neg (by omega),
    if_neg (by omega)]
  have hlen2 : 2 * s.length / 2 = s.length := by omega
  rw [hlen2]
  have htr : (s.map fun c => if c = slashW then backslashW else c).length
      = s.length := List.length_map s _
  have hidx : s.length - 1 <
      (s.map fun c => if c = slashW then backslashW else c).length := by
    omega
  rw [List.getD_append _ _ _ _ (by simp; omega),
    List.getD_append _ _ _ _ hidx]
  have hlast : (s.map fun c => if c = slashW then backslashW else c).getD
      (s.length - 1) 0 ≠ 0 := by
    rw [List.getD_eq_getElem _ _ hidx, List.getElem_map]
    rcases hchars _ (List.getElem_mem (show s.length - 1 < s.length by
      omega)) with ⟨hb, h0⟩
    by_cases hc : s[s.length - 1] = slashW
    · rw [if_pos hc]
      decide
    · rw [if_neg hc]
      exact h0
  rw [if_neg hlast, if_neg (by omega)]
  rw [List.take_append_of_le_length (by simp),
    List.take_append_of_le_length (le_of_eq htr.symm), ← htr,
    List.take_length, List.map_map]
  have hpt : ∀ c ∈ s,
      ((fun c => if c = backslashW then slashW else c) ∘
        fun c => if c = slashW then backslashW else c) c = id c := by
    intro c hc
    rcases hchars c hc with ⟨hb, _⟩
    by_cases hsl : c = slashW
    · simp [hsl, slashW, backslashW]
    · simp [Function.comp, if_neg hsl, if_neg hb]
  rw [List.map_congr_left hpt, List.map_id]

theorem c7_symlink_roundtrip_witness :
    (([slashW, 97, slashW, 98] : List Nat) ≠ [] ∧
      ntfsReparseBytes 4 ≤ 1024 ∧ (4 : Nat) ≤ 4096) ∧
    (ntfsCreateReparseBuffer 1024 [slashW, 97, slashW, 98]).bind
        (ntfsReadlinkHlp 1024 (ntfsReparseBytes 4) 4096)
      = Except.ok [slashW, 97, slashW, 98] :=
  ⟨⟨by decide, by decide, by decide⟩,
   c7_symlink_roundtrip 1024 4096 [slashW, 97, slashW, 98] (by decide)
     (by decide) (by decide) (by decide)⟩
